import Mathlib

/-!
Verification of the SmartParkV2 frontend against its specification.

The development shallowly embeds the TypeScript/JavaScript code of the
repository into Lean.  JavaScript runtime values are modelled by `JVal`,
thrown exceptions by `Except JVal`, the network by oracle functions passed
as explicit arguments, and the Next.js cookie store by a record of the two
cookies this application uses.  Each definition mirrors one function of the
source, keeping its name where Lean allows.
-/

mutual
/-- Model of a JavaScript runtime value (the values flowing through the
frontend: parsed JSON bodies, cookie values, thrown errors).  Numbers are
modelled as integers; the code under verification performs no arithmetic.
`JList` and `JFields` are the element and field lists of arrays and
objects, kept mutual so that recursion over values stays structural. -/
inductive JVal where
  | undefined
  | null
  | bool (b : Bool)
  | num (n : Int)
  | str (s : String)
  | arr (elems : JList)
  | obj (fields : JFields)

inductive JList where
  | nil
  | cons (head : JVal) (tail : JList)

inductive JFields where
  | nil
  | cons (key : String) (val : JVal) (tail : JFields)
end

/-- The fields of an object as an ordinary list of pairs. -/
def JFields.toList : JFields → List (String × JVal)
  | .nil => []
  | .cons k v tl => (k, v) :: tl.toList

/-- Build object fields from an ordinary list of pairs. -/
def JFields.ofList : List (String × JVal) → JFields
  | [] => .nil
  | (k, v) :: tl => .cons k v (JFields.ofList tl)

/-- The elements of an array as an ordinary list. -/
def JList.toList : JList → List JVal
  | .nil => []
  | .cons x tl => x :: tl.toList

/-- Build array elements from an ordinary list. -/
def JList.ofList : List JVal → JList
  | [] => .nil
  | x :: tl => .cons x (JList.ofList tl)

/-- Object literal helper. -/
def jobj (l : List (String × JVal)) : JVal := .obj (JFields.ofList l)

/-- Array literal helper. -/
def jarr (l : List JVal) : JVal := .arr (JList.ofList l)

theorem jfields_toList_ofList (l : List (String × JVal)) :
    (JFields.ofList l).toList = l := by
  induction l with
  | nil => rfl
  | cons hd tl ih => cases hd; simp [JFields.ofList, JFields.toList, ih]

theorem jlist_toList_ofList (l : List JVal) :
    (JList.ofList l).toList = l := by
  induction l with
  | nil => rfl
  | cons hd tl ih => simp [JList.ofList, JList.toList, ih]

/-- JavaScript truthiness: `undefined`, `null`, `false`, `0` and the empty
string are falsy; every object and array is truthy. -/
def jsTruthy : JVal → Bool
  | .undefined => false
  | .null => false
  | .bool b => b
  | .num n => n != 0
  | .str s => s != ""
  | .arr _ => true
  | .obj _ => true

/-- JavaScript `a || b`: returns `a` when truthy, otherwise `b`. -/
def jsOr (a b : JVal) : JVal := if jsTruthy a then a else b

/-- JavaScript property read `v.k`: throws a TypeError when the base is
`null` or `undefined`, returns the field of an object (or `undefined` when
absent), and `undefined` for primitive bases. -/
def jsGetField : JVal → String → Except JVal JVal
  | .undefined, k => .error (.str ("TypeError: cannot read " ++ k))
  | .null, k => .error (.str ("TypeError: cannot read " ++ k))
  | .obj fs, k =>
      .ok (match fs.toList.find? (fun p => p.1 == k) with
           | some p => p.2
           | none => .undefined)
  | _, _ => .ok .undefined

/-- JavaScript optional-chained read `v?.k`: yields `undefined` instead of
throwing when the base is `null` or `undefined`. -/
def jsGetFieldOpt (v : JVal) (k : String) : JVal :=
  match v with
  | .obj fs =>
      (match fs.toList.find? (fun p => p.1 == k) with
       | some p => p.2
       | none => .undefined)
  | _ => .undefined

/-- Is the value `null` or `undefined`? -/
def JVal.isNullish : JVal → Bool
  | .null => true
  | .undefined => true
  | _ => false

/-- JavaScript strict equality `v === "lit"` against a string literal:
true exactly when `v` is that string. -/
def jsStrictEqStr (v : JVal) (s : String) : Bool :=
  match v with
  | .str t => t == s
  | _ => false

mutual
/-- JavaScript string coercion `String(v)` (also `.toString()` and object
property keys): arrays join their elements with commas, rendering
`null`/`undefined` elements as the empty string; plain objects render as
`[object Object]`. -/
def jsToStr : JVal → String
  | .undefined => "undefined"
  | .null => "null"
  | .bool b => if b then "true" else "false"
  | .num n => toString n
  | .str s => s
  | .arr xs => jsToStrJList xs
  | .obj _ => "[object Object]"

/-- Comma-joined rendering of array elements for `jsToStr`. -/
def jsToStrJList : JList → String
  | .nil => ""
  | .cons x .nil =>
      (match x with
       | .null => ""
       | .undefined => ""
       | v => jsToStr v)
  | .cons x tl =>
      (match x with
       | .null => ""
       | .undefined => ""
       | v => jsToStr v) ++ "," ++ jsToStrJList tl
end

/-- JavaScript `Object.entries`: throws on `null`/`undefined`, yields the
key/value pairs of an object, index/value pairs of an array, and the empty
list on primitives. -/
def jsEntries : JVal → Except JVal (List (String × JVal))
  | .undefined => .error (.str "TypeError: cannot convert undefined to object")
  | .null => .error (.str "TypeError: cannot convert null to object")
  | .obj fs => .ok fs.toList
  | .arr xs => .ok ((xs.toList.enum).map (fun p => (toString p.1, p.2)))
  | _ => .ok []

example : jsTruthy (.str "") = false := rfl
example : jsOr (.str "") (.null) = .null := rfl
example : jsGetField (jobj [("a", .num 1)]) "a" = .ok (.num 1) := rfl
example : jsToStr (.num 1) = "1" := rfl
example : jsToStr (jarr [.num 1, .null, .str "x"]) = "1,,x" := rfl
example : jobj [] ≠ JVal.null := by simp [jobj]

/-! ## Cookies and HTTP responses -/

/-- Attributes passed to `cookieStore.set` in the source. -/
structure CookieAttrs where
  httpOnly : Bool
  secure : Bool
  sameSite : String
  path : String
  maxAge : Nat
deriving DecidableEq, Repr

/-- A stored cookie: its value and the attributes it was set with. -/
structure Cookie where
  value : JVal
  attrs : CookieAttrs

/-- The Next.js cookie store, restricted to the two cookies this
application reads or writes. -/
structure CookieStore where
  accessToken : Option Cookie
  refreshToken : Option Cookie

/-- `cookieStore.get(name)?.value`: the value of an optional cookie, with
`undefined` when the cookie is absent. -/
def cookieVal : Option Cookie → JVal
  | some c => c.value
  | none => .undefined

/-- The attributes used for the `accessToken` cookie everywhere it is set
(httpOnly false, secure, sameSite strict, path `/`, maxAge 60 * 15). -/
def accessAttrs : CookieAttrs :=
  { httpOnly := false, secure := true, sameSite := "strict", path := "/", maxAge := 60 * 15 }

/-- The attributes used for the `refreshToken` cookie in login/register
(httpOnly true, secure, sameSite strict, path `/`, maxAge 60 * 60 * 24 * 30). -/
def refreshAttrs : CookieAttrs :=
  { httpOnly := true, secure := true, sameSite := "strict", path := "/", maxAge := 60 * 60 * 24 * 30 }

/-- `cookieStore.set("accessToken", v, accessAttrs)`. -/
def setAccessCookie (cs : CookieStore) (v : JVal) : CookieStore :=
  { cs with accessToken := some { value := v, attrs := accessAttrs } }

/-- `cookieStore.set("refreshToken", v, refreshAttrs)`. -/
def setRefreshCookie (cs : CookieStore) (v : JVal) : CookieStore :=
  { cs with refreshToken := some { value := v, attrs := refreshAttrs } }

/-- A fetch `Response`, reduced to what the code consumes: the numeric
status and the result of `res.json()` (`Except.error` when the body fails
to parse, carrying the thrown SyntaxError). -/
structure Resp where
  status : Nat
  json : Except JVal JVal

/-- `res.ok`: status in the 200..299 range. -/
def Resp.ok (r : Resp) : Bool := 200 ≤ r.status && r.status ≤ 299

/-- One network action performed by a fetch wrapper: `main auth` is a fetch
of the wrapped endpoint carrying the given `Authorization` bearer value
(`none` when no header is attached), `refresh` is a call of
`refreshAccessToken`. -/
inductive Ev where
  | main (auth : Option JVal)
  | refresh

/-- The `Authorization` header attached by `baseFetch` (and by the inline
fetches of `apiFetch`): present exactly when the token is truthy
(`...(token ? Authorization : nothing)` in the source). -/
def authHeader (token : JVal) : Option JVal :=
  if jsTruthy token then some token else none

/-! ## `src/frontend/src/services/api/server.ts` and `api/client.ts`

The network is an oracle `net` mapping the attached Authorization value to
the outcome of fetching the wrapped endpoint, and `rnet` is the outcome of
the POST to `/accounts/auth/refresh/`.  `Except.error e` models a rejected
fetch throwing the value `e`. -/

/-- `getAccessToken` of both `api/server.ts` and `services/server.tsx`:
`cookieStore.get("accessToken")?.value || null`. -/
def getAccessToken (cs : CookieStore) : JVal :=
  jsOr (cookieVal cs.accessToken) .null

/-- `refreshAccessToken` of `api/server.ts`: returns null when the
`refreshToken` cookie is missing (falsy) or the refresh response is not
ok; on an ok response it parses the body, stores `data.access` in the
`accessToken` cookie and returns it.  It has no try/catch, so a rejected
fetch, an unparsable ok body, or a nullish parsed body make it throw. -/
def refreshAccessToken (cs : CookieStore) (rnet : Except JVal Resp) :
    Except JVal (JVal × CookieStore) :=
  let refresh := cookieVal cs.refreshToken
  if jsTruthy refresh = false then .ok (.null, cs)
  else
    match rnet with
    | .error e => .error e
    | .ok res =>
      if res.ok = false then .ok (.null, cs)
      else
        match res.json with
        | .error e => .error e
        | .ok data =>
          match jsGetField data "access" with
          | .error e => .error e
          | .ok a => .ok (a, setAccessCookie cs a)

/-- `apiServerFetch` of `api/server.ts`: fetch with the current access
token; on a 401, refresh and (when a truthy token came back) retry once.
The returned triple is the response, the cookie store after the call, and
the trace of network actions. -/
def apiServerFetch (cs : CookieStore) (net : Option JVal → Except JVal Resp)
    (rnet : Except JVal Resp) : Except JVal (Resp × CookieStore × List Ev) :=
  let token := getAccessToken cs
  match net (authHeader token) with
  | .error e => .error e
  | .ok res =>
    if res.status = 401 then
      match refreshAccessToken cs rnet with
      | .error e => .error e
      | .ok (tok, cs2) =>
        if jsTruthy tok = false then .ok (res, cs2, [.main (authHeader token), .refresh])
        else
          match net (authHeader tok) with
          | .error e => .error e
          | .ok res2 =>
              .ok (res2, cs2, [.main (authHeader token), .refresh, .main (authHeader tok)])
    else .ok (res, cs, [.main (authHeader token)])

/-- Does the character list start with the given pattern?  (Model of the
JavaScript `String.prototype.startsWith`.) -/
def listStartsWith : List Char → List Char → Bool
  | [], _ => true
  | _ :: _, [] => false
  | p :: ps, x :: xs => p == x && listStartsWith ps xs

/-- Model of the JavaScript `s.startsWith(pre)`. -/
def jsStartsWith (s pre : String) : Bool := listStartsWith pre.toList s.toList

/-- Split a character list at every occurrence of a single character
(model of the JavaScript `split` with a one-character separator). -/
def splitOnChar (c : Char) : List Char → List (List Char)
  | [] => [[]]
  | x :: xs =>
    match splitOnChar c xs with
    | [] => [[]]
    | s :: rest => if x == c then [] :: s :: rest else (x :: s) :: rest

/-- Split a character list at every occurrence of `"; "` (model of the
JavaScript `document.cookie.split("; ")`). -/
def splitOnSemiSpace : List Char → List (List Char)
  | [] => [[]]
  | [x] => [[x]]
  | x :: y :: xs =>
    if x == ';' && y == ' ' then [] :: splitOnSemiSpace xs
    else
      match splitOnSemiSpace (y :: xs) with
      | [] => [[x]]
      | s :: rest => (x :: s) :: rest

/-- `getCookie` of `api/client.ts`: scan `document.cookie` (given as the
raw cookie string) for `name=`, take the piece after the first `=`, and
coerce an empty or missing result to null. -/
def getCookie (name : String) (cookieStr : String) : JVal :=
  match ((splitOnSemiSpace cookieStr.toList).map String.mk).find?
      (fun c => jsStartsWith c (name ++ "=")) with
  | none => .null
  | some c =>
      jsOr (match ((splitOnChar '=' c.toList).map String.mk).get? 1 with
            | some v => .str v
            | none => .undefined) .null

/-- `apiClientFetch` of `api/client.ts`: fetch with the access token read
from `document.cookie`; on a 401 it retries once with no token and no
refresh (its comment delegates refreshing to the server side). -/
def apiClientFetch (cookieStr : String) (net : Option JVal → Except JVal Resp) :
    Except JVal (Resp × List Ev) :=
  let token := getCookie "accessToken" cookieStr
  match net (authHeader token) with
  | .error e => .error e
  | .ok res =>
    if res.status = 401 then
      match net none with
      | .error e => .error e
      | .ok res2 => .ok (res2, [.main (authHeader token), .main none])
    else .ok (res, [.main (authHeader token)])

/-! ## `src/frontend/src/services/server.tsx` -/

/-- `refreshAccessToken` of `services/server.tsx`: the same flow as the
`api/server.ts` variant but with its body inside try/catch, so every
throwing path (rejected fetch, unparsable body, nullish parsed body)
returns null with the cookies untouched. -/
def refreshAccessTokenTsx (cs : CookieStore) (rnet : Except JVal Resp) :
    JVal × CookieStore :=
  let refreshToken := cookieVal cs.refreshToken
  if jsTruthy refreshToken = false then (.null, cs)
  else
    match rnet with
    | .error _ => (.null, cs)
    | .ok res =>
      if res.ok = false then (.null, cs)
      else
        match res.json with
        | .error _ => (.null, cs)
        | .ok data =>
          match jsGetField data "access" with
          | .error _ => (.null, cs)
          | .ok a => (a, setAccessCookie cs a)

/-- `apiFetch` of `services/server.tsx`: like `apiServerFetch` but the
refresh step never throws (see `refreshAccessTokenTsx`); the retry fetch
carries the refreshed token unconditionally. -/
def apiFetch (cs : CookieStore) (net : Option JVal → Except JVal Resp)
    (rnet : Except JVal Resp) : Except JVal (Resp × CookieStore × List Ev) :=
  let token := getAccessToken cs
  match net (authHeader token) with
  | .error e => .error e
  | .ok res =>
    if res.status = 401 then
      let tc := refreshAccessTokenTsx cs rnet
      if jsTruthy tc.1 = false then .ok (res, tc.2, [.main (authHeader token), .refresh])
      else
        match net (authHeader tc.1) with
        | .error e => .error e
        | .ok res2 =>
            .ok (res2, tc.2, [.main (authHeader token), .refresh, .main (authHeader tc.1)])
    else .ok (res, cs, [.main (authHeader token)])

/-! ## Claims C1, C2, C3: the token refresh flow -/
-- C1/C2/C3 theorems (to be appended to Spec2Proof.lean once they compile)

/-- C1 counterexample environment: both cookies set. -/
def c1cs : CookieStore :=
  { accessToken := some { value := .str "tok", attrs := accessAttrs },
    refreshToken := some { value := .str "ref", attrs := refreshAttrs } }

/-- C1 counterexample environment: the wrapped endpoint always answers 401. -/
def c1net : Option JVal → Except JVal Resp := fun _ => .ok { status := 401, json := .ok .null }

/-- C1 counterexample environment: the refresh endpoint answers 200 with a
body that fails to parse (so `res.json()` throws a SyntaxError). -/
def c1rnet : Except JVal Resp := .ok { status := 200, json := .error (.str "SyntaxError") }

/-- C1 (counterexample): with both cookies present, a 401 from the wrapped
endpoint and an ok refresh response whose body fails to parse,
`apiServerFetch` propagates the exception instead of returning the
original 401 response, contradicting the claim that when the refresh
yields no new token the original 401 response is returned unchanged. -/
theorem apiServerFetch_refresh_throw_cex :
    c1net (authHeader (getAccessToken c1cs)) = .ok { status := 401, json := .ok .null } ∧
    refreshAccessToken c1cs c1rnet = .error (.str "SyntaxError") ∧
    apiServerFetch c1cs c1net c1rnet = .error (.str "SyntaxError") := by
  refine ⟨rfl, rfl, rfl⟩

/-- C1 (amended): characterization of `apiServerFetch` and `apiFetch`.
Both first issue the request with the current accessToken cookie value as
Bearer token; exactly when that response has status 401 they attempt a
token refresh; if the refresh returns a truthy token the request is
re-issued exactly once with it and that second response is returned,
and if the refresh returns a falsy token the original 401 response is
returned unchanged.  Deviations from the original claim: an exception in
the refresh path propagates out of `apiServerFetch` (while `apiFetch`
catches refresh errors and keeps the original 401), and a rejected first
or retry fetch propagates out of both. -/
theorem apiWrapper_refresh_flow (cs : CookieStore) (net : Option JVal → Except JVal Resp)
    (rnet : Except JVal Resp) :
    (∀ r, net (authHeader (getAccessToken cs)) = .ok r → r.status ≠ 401 →
      apiServerFetch cs net rnet = .ok (r, cs, [.main (authHeader (getAccessToken cs))]) ∧
      apiFetch cs net rnet = .ok (r, cs, [.main (authHeader (getAccessToken cs))])) ∧
    (∀ r t cs2, net (authHeader (getAccessToken cs)) = .ok r → r.status = 401 →
      refreshAccessToken cs rnet = .ok (t, cs2) → jsTruthy t = false →
      apiServerFetch cs net rnet
        = .ok (r, cs2, [.main (authHeader (getAccessToken cs)), .refresh])) ∧
    (∀ r t cs2 r2, net (authHeader (getAccessToken cs)) = .ok r → r.status = 401 →
      refreshAccessToken cs rnet = .ok (t, cs2) → jsTruthy t = true →
      net (authHeader t) = .ok r2 →
      apiServerFetch cs net rnet
        = .ok (r2, cs2, [.main (authHeader (getAccessToken cs)), .refresh, .main (authHeader t)])) ∧
    (∀ r e, net (authHeader (getAccessToken cs)) = .ok r → r.status = 401 →
      refreshAccessToken cs rnet = .error e →
      apiServerFetch cs net rnet = .error e) ∧
    (∀ r, net (authHeader (getAccessToken cs)) = .ok r → r.status = 401 →
      jsTruthy (refreshAccessTokenTsx cs rnet).1 = false →
      apiFetch cs net rnet
        = .ok (r, (refreshAccessTokenTsx cs rnet).2,
               [.main (authHeader (getAccessToken cs)), .refresh])) ∧
    (∀ r r2, net (authHeader (getAccessToken cs)) = .ok r → r.status = 401 →
      jsTruthy (refreshAccessTokenTsx cs rnet).1 = true →
      net (authHeader (refreshAccessTokenTsx cs rnet).1) = .ok r2 →
      apiFetch cs net rnet
        = .ok (r2, (refreshAccessTokenTsx cs rnet).2,
               [.main (authHeader (getAccessToken cs)), .refresh,
                .main (authHeader (refreshAccessTokenTsx cs rnet).1)])) ∧
    (∀ e, net (authHeader (getAccessToken cs)) = .error e →
      apiServerFetch cs net rnet = .error e ∧ apiFetch cs net rnet = .error e) := by
  refine ⟨?_, ?_, ?_, ?_, ?_, ?_, ?_⟩
  · intro r hnet hs
    constructor
    · simp only [apiServerFetch, hnet]; simp [hs]
    · simp only [apiFetch, hnet]; simp [hs]
  · intro r t cs2 hnet hs hr ht
    simp only [apiServerFetch, hnet, hs, hr, ht]
    simp
  · intro r t cs2 r2 hnet hs hr ht hnet2
    simp only [apiServerFetch, hnet, hs, hr, ht, hnet2]
    simp
  · intro r e hnet hs hr
    simp only [apiServerFetch, hnet, hs, hr]
    simp
  · intro r hnet hs ht
    simp only [apiFetch, hnet, hs, ht]
    simp
  · intro r r2 hnet hs ht hnet2
    simp only [apiFetch, hnet, hs, ht, hnet2]
    simp
  · intro e hnet
    constructor
    · simp only [apiServerFetch, hnet]
    · simp only [apiFetch, hnet]

/-- Witness environment for C1: refresh succeeds with a fresh token. -/
def c1wnet : Option JVal → Except JVal Resp := fun a =>
  match a with
  | some (.str "new") => .ok { status := 200, json := .ok (jobj [("d", .num 1)]) }
  | _ => .ok { status := 401, json := .ok .null }

/-- Witness environment for C1: the refresh endpoint answers ok with a
parsed body carrying `access = "new"`. -/
def c1wrnet : Except JVal Resp := .ok { status := 200, json := .ok (jobj [("access", .str "new")]) }

/-- Witness for C1: a concrete run through the 401-refresh-retry branch. -/
theorem apiWrapper_refresh_flow_witness :
    apiServerFetch c1cs c1wnet c1wrnet
      = .ok ({ status := 200, json := .ok (jobj [("d", .num 1)]) },
             setAccessCookie c1cs (.str "new"),
             [.main (some (.str "tok")), .refresh, .main (some (.str "new"))]) := by
  have h := (apiWrapper_refresh_flow c1cs c1wnet c1wrnet).2.2.1
    { status := 401, json := .ok .null } (.str "new") (setAccessCookie c1cs (.str "new"))
    { status := 200, json := .ok (jobj [("d", .num 1)]) } rfl rfl rfl rfl rfl
  exact h

/-- C2 (counterexample): the client-side wrapper does not refresh.  With
cookie string `accessToken=abc` and an endpoint that always answers 401,
`apiClientFetch` retries exactly once with no Authorization token and its
trace contains no refresh action, contradicting the claim that both
wrappers obtain a fresh access token via the refresh flow before
retrying. -/
theorem apiClientFetch_no_refresh_cex :
    getCookie "accessToken" "accessToken=abc" = .str "abc" ∧
    apiClientFetch "accessToken=abc" (fun _ => .ok { status := 401, json := .ok .null })
      = .ok ({ status := 401, json := .ok .null },
             [.main (some (.str "abc")), .main none]) ∧
    Ev.refresh ∉ [Ev.main (some (.str "abc")), Ev.main none] := by
  refine ⟨rfl, rfl, by simp⟩

/-- C2 (amended): only the server-side wrappers perform automatic
401-triggered refresh.  Whenever a request through `apiServerFetch`
returns 401 and the wrapper returns normally, its trace contains a refresh
action; whereas `apiClientFetch` on a 401 never refreshes: it re-issues
the request exactly once with no Authorization token (its comment
delegates refreshing to the server side) and returns that retry's
outcome. -/
theorem dual_wrapper_401_handling :
    (∀ (cs : CookieStore) (net : Option JVal → Except JVal Resp) (rnet : Except JVal Resp)
        (r res : Resp) (cs2 : CookieStore) (log : List Ev),
      net (authHeader (getAccessToken cs)) = .ok r → r.status = 401 →
      apiServerFetch cs net rnet = .ok (res, cs2, log) → Ev.refresh ∈ log) ∧
    (∀ (cookieStr : String) (net : Option JVal → Except JVal Resp) (r r2 : Resp),
      net (authHeader (getCookie "accessToken" cookieStr)) = .ok r → r.status = 401 →
      net none = .ok r2 →
      apiClientFetch cookieStr net
        = .ok (r2, [.main (authHeader (getCookie "accessToken" cookieStr)), .main none]) ∧
      Ev.refresh ∉ [Ev.main (authHeader (getCookie "accessToken" cookieStr)), Ev.main none]) := by
  constructor
  · intro cs net rnet r res cs2 log hnet hs hres
    simp only [apiServerFetch, hnet, hs, if_true] at hres
    split at hres
    · exact absurd hres (by simp)
    · split at hres
      · rw [Except.ok.injEq, Prod.mk.injEq, Prod.mk.injEq] at hres
        obtain ⟨-, -, hlog⟩ := hres
        rw [← hlog]; simp
      · split at hres
        · exact absurd hres (by simp)
        · rw [Except.ok.injEq, Prod.mk.injEq, Prod.mk.injEq] at hres
          obtain ⟨-, -, hlog⟩ := hres
          rw [← hlog]; simp
  · intro cookieStr net r r2 hnet hs hnet2
    constructor
    · simp only [apiClientFetch, hnet, hs, if_true, hnet2]
    · simp

/-- Witness for C2: concrete runs through both conjuncts. -/
theorem dual_wrapper_401_handling_witness :
    Ev.refresh ∈ [Ev.main (some (.str "tok")), Ev.refresh, Ev.main (some (.str "new"))] ∧
    apiClientFetch "accessToken=abc" (fun _ => .ok { status := 401, json := .ok .null })
      = .ok ({ status := 401, json := .ok .null },
             [.main (some (.str "abc")), .main none]) := by
  constructor
  · exact dual_wrapper_401_handling.1 c1cs c1wnet c1wrnet
      { status := 401, json := .ok .null } { status := 200, json := .ok (jobj [("d", .num 1)]) }
      (setAccessCookie c1cs (.str "new"))
      [Ev.main (some (.str "tok")), Ev.refresh, Ev.main (some (.str "new"))]
      rfl rfl rfl
  · exact (dual_wrapper_401_handling.2 "accessToken=abc"
      (fun _ => .ok { status := 401, json := .ok .null })
      { status := 401, json := .ok .null } { status := 401, json := .ok .null }
      rfl rfl rfl).1

/-- C3 (confirmed): behavior of both `refreshAccessToken` variants.  Each
returns null and leaves the cookies unchanged when the refreshToken cookie
is absent or the refresh endpoint responds non-ok; the `services/server.tsx`
variant also returns null and leaves the cookies unchanged when the fetch
throws; on an ok response (with the refreshToken cookie present and a
parsed body providing `access`) both set the accessToken cookie to that
access value with maxAge 900 seconds and return it; and the accessToken
cookie changes only on an ok response.  `accessAttrs` records maxAge 900. -/
theorem refreshAccessToken_behavior (cs : CookieStore) (rnet : Except JVal Resp) :
    accessAttrs.maxAge = 900 ∧
    (cs.refreshToken = none →
      refreshAccessToken cs rnet = .ok (.null, cs) ∧
      refreshAccessTokenTsx cs rnet = (.null, cs)) ∧
    (∀ r, rnet = .ok r → r.ok = false →
      refreshAccessToken cs rnet = .ok (.null, cs) ∧
      refreshAccessTokenTsx cs rnet = (.null, cs)) ∧
    (∀ e, rnet = .error e → refreshAccessTokenTsx cs rnet = (.null, cs)) ∧
    (∀ r data a, jsTruthy (cookieVal cs.refreshToken) = true → rnet = .ok r →
      r.ok = true → r.json = .ok data → jsGetField data "access" = .ok a →
      refreshAccessToken cs rnet = .ok (a, setAccessCookie cs a) ∧
      refreshAccessTokenTsx cs rnet = (a, setAccessCookie cs a)) ∧
    (∀ t cs2, refreshAccessToken cs rnet = .ok (t, cs2) → cs2.accessToken ≠ cs.accessToken →
      ∃ r, rnet = .ok r ∧ r.ok = true ∧
        ∃ data a, r.json = .ok data ∧ jsGetField data "access" = .ok a ∧
          t = a ∧ cs2 = setAccessCookie cs a) ∧
    (∀ t cs2, refreshAccessTokenTsx cs rnet = (t, cs2) → cs2.accessToken ≠ cs.accessToken →
      ∃ r, rnet = .ok r ∧ r.ok = true ∧
        ∃ data a, r.json = .ok data ∧ jsGetField data "access" = .ok a ∧
          t = a ∧ cs2 = setAccessCookie cs a) := by
  refine ⟨rfl, ?_, ?_, ?_, ?_, ?_, ?_⟩
  · intro h
    constructor
    · simp [refreshAccessToken, h, cookieVal, jsTruthy]
    · simp [refreshAccessTokenTsx, h, cookieVal, jsTruthy]
  · intro r hr hok
    constructor
    · simp only [refreshAccessToken, hr, hok]
      split
      · rfl
      · simp
    · simp only [refreshAccessTokenTsx, hr, hok]
      split
      · rfl
      · simp
  · intro e he
    simp only [refreshAccessTokenTsx, he]
    split
    · rfl
    · rfl
  · intro r data a hcv hr hok hjson hacc
    constructor
    · simp only [refreshAccessToken, hcv, hr, hok, hjson, hacc]
      simp
    · simp only [refreshAccessTokenTsx, hcv, hr, hok, hjson, hacc]
      simp
  · intro t cs2 h hne
    cases hc : jsTruthy (cookieVal cs.refreshToken) with
    | false =>
      have hv : refreshAccessToken cs rnet = .ok (.null, cs) := by
        simp only [refreshAccessToken, hc]; simp
      rw [hv, Except.ok.injEq, Prod.mk.injEq] at h
      exact absurd (by rw [← h.2]) hne
    | true =>
      cases rnet with
      | error e =>
        have hv : refreshAccessToken cs (.error e) = .error e := by
          simp only [refreshAccessToken, hc]; simp
        rw [hv] at h; exact absurd h (by simp)
      | ok res =>
        cases hok : res.ok with
        | false =>
          have hv : refreshAccessToken cs (.ok res) = .ok (.null, cs) := by
            simp only [refreshAccessToken, hc, hok]; simp
          rw [hv, Except.ok.injEq, Prod.mk.injEq] at h
          exact absurd (by rw [← h.2]) hne
        | true =>
          cases hjson : res.json with
          | error e =>
            have hv : refreshAccessToken cs (.ok res) = .error e := by
              simp only [refreshAccessToken, hc, hok, hjson]; simp
            rw [hv] at h; exact absurd h (by simp)
          | ok data =>
            cases hacc : jsGetField data "access" with
            | error e =>
              have hv : refreshAccessToken cs (.ok res) = .error e := by
                simp only [refreshAccessToken, hc, hok, hjson, hacc]; simp
              rw [hv] at h; exact absurd h (by simp)
            | ok a =>
              have hv : refreshAccessToken cs (.ok res) = .ok (a, setAccessCookie cs a) := by
                simp only [refreshAccessToken, hc, hok, hjson, hacc]; simp
              rw [hv, Except.ok.injEq, Prod.mk.injEq] at h
              exact ⟨res, rfl, hok, data, a, hjson, hacc, h.1.symm, h.2.symm⟩
  · intro t cs2 h hne
    cases hc : jsTruthy (cookieVal cs.refreshToken) with
    | false =>
      have hv : refreshAccessTokenTsx cs rnet = (.null, cs) := by
        simp only [refreshAccessTokenTsx, hc]; simp
      rw [hv, Prod.mk.injEq] at h
      exact absurd (by rw [← h.2]) hne
    | true =>
      cases rnet with
      | error e =>
        have hv : refreshAccessTokenTsx cs (.error e) = (.null, cs) := by
          simp only [refreshAccessTokenTsx, hc]; simp
        rw [hv, Prod.mk.injEq] at h
        exact absurd (by rw [← h.2]) hne
      | ok res =>
        cases hok : res.ok with
        | false =>
          have hv : refreshAccessTokenTsx cs (.ok res) = (.null, cs) := by
            simp only [refreshAccessTokenTsx, hc, hok]; simp
          rw [hv, Prod.mk.injEq] at h
          exact absurd (by rw [← h.2]) hne
        | true =>
          cases hjson : res.json with
          | error e =>
            have hv : refreshAccessTokenTsx cs (.ok res) = (.null, cs) := by
              simp only [refreshAccessTokenTsx, hc, hok, hjson]; simp
            rw [hv, Prod.mk.injEq] at h
            exact absurd (by rw [← h.2]) hne
          | ok data =>
            cases hacc : jsGetField data "access" with
            | error e =>
              have hv : refreshAccessTokenTsx cs (.ok res) = (.null, cs) := by
                simp only [refreshAccessTokenTsx, hc, hok, hjson, hacc]; simp
              rw [hv, Prod.mk.injEq] at h
              exact absurd (by rw [← h.2]) hne
            | ok a =>
              have hv : refreshAccessTokenTsx cs (.ok res) = (a, setAccessCookie cs a) := by
                simp only [refreshAccessTokenTsx, hc, hok, hjson, hacc]; simp
              rw [hv, Prod.mk.injEq] at h
              exact ⟨res, rfl, hok, data, a, hjson, hacc, h.1.symm, h.2.symm⟩

/-- Witness for C3: a concrete successful refresh. -/
theorem refreshAccessToken_behavior_witness :
    refreshAccessToken c1cs (.ok { status := 200, json := .ok (jobj [("access", .str "new")]) })
      = .ok (.str "new", setAccessCookie c1cs (.str "new")) := by
  exact ((refreshAccessToken_behavior c1cs
    (.ok { status := 200, json := .ok (jobj [("access", .str "new")]) })).2.2.2.2.1
    { status := 200, json := .ok (jobj [("access", .str "new")]) }
    (jobj [("access", .str "new")]) (.str "new") rfl rfl rfl rfl rfl).1

/-! ## Claim C8: `src/frontend/src/middleware.ts` -/

/-- Outcome of the Next.js middleware: a redirect or pass-through. -/
inductive MwResult where
  | redirect (target : String)
  | next
deriving DecidableEq, Repr

/-- `PUBLIC_ROUTES` of `middleware.ts`. -/
def PUBLIC_ROUTES : List String := ["/login", "/register"]

/-- `PROTECTED_ROUTES` of `middleware.ts`. -/
def PROTECTED_ROUTES : List String := ["/profile", "/saved"]

/-- Truthiness of `request.cookies.get("accessToken")?.value`, a value of
type string-or-undefined: true exactly for a present, non-empty cookie. -/
def cookieStrTruthy : Option String → Bool
  | some s => s != ""
  | none => false

/-- `middleware` of `middleware.ts`: redirect authenticated users away from
public routes, unauthenticated users away from protected routes, and pass
everything else through.  The source tests the cookie value for JavaScript
truthiness, not mere presence. -/
def middleware (pathname : String) (accessToken : Option String) : MwResult :=
  let isPublic := PUBLIC_ROUTES.any (fun route => jsStartsWith pathname route)
  let isProtected := PROTECTED_ROUTES.any (fun route => jsStartsWith pathname route)
  if cookieStrTruthy accessToken && isPublic then .redirect "/"
  else if !cookieStrTruthy accessToken && isProtected then .redirect "/login"
  else .next

/-- The middleware as worded by the claim: decisions keyed on cookie
presence (`isSome`), not on truthiness of its value. -/
def middlewareClaimed (pathname : String) (accessToken : Option String) : MwResult :=
  if accessToken.isSome
      && (jsStartsWith pathname "/login" || jsStartsWith pathname "/register") then
    .redirect "/"
  else if accessToken.isNone
      && (jsStartsWith pathname "/profile" || jsStartsWith pathname "/saved") then
    .redirect "/login"
  else .next

/-- The middleware as amended: a present but empty-valued accessToken
cookie counts as unauthenticated. -/
def middlewareAmended (pathname : String) (accessToken : Option String) : MwResult :=
  if cookieStrTruthy accessToken
      && (jsStartsWith pathname "/login" || jsStartsWith pathname "/register") then
    .redirect "/"
  else if !cookieStrTruthy accessToken
      && (jsStartsWith pathname "/profile" || jsStartsWith pathname "/saved") then
    .redirect "/login"
  else .next

/-- C8 (counterexample): a request to `/profile` carrying an accessToken
cookie with the empty value.  The claim says such a request passes through
unmodified (the cookie is present and the path is not public), but the
middleware treats the empty value as falsy and redirects to `/login`. -/
theorem middleware_empty_cookie_cex :
    middleware "/profile" (some "") = .redirect "/login" ∧
    middlewareClaimed "/profile" (some "") = .next ∧
    middleware "/profile" (some "") ≠ middlewareClaimed "/profile" (some "") := by
  refine ⟨rfl, rfl, by decide⟩

/-- C8 (amended): for every request matched by the middleware, if the
accessToken cookie is present with a non-empty value and the pathname
starts with `/login` or `/register`, the middleware redirects to `/`; if
the accessToken cookie is absent or has an empty value and the pathname
starts with `/profile` or `/saved`, it redirects to `/login`; in every
other case the request passes through unmodified. -/
theorem middleware_routing (pathname : String) (accessToken : Option String) :
    middleware pathname accessToken = middlewareAmended pathname accessToken := by
  simp only [middleware, middlewareAmended, PUBLIC_ROUTES, PROTECTED_ROUTES,
    List.any_cons, List.any_nil, Bool.or_false]

/-! ## Claim C4: endpoint inventory of the remote calls -/

/-- A remote call of the frontend: the client issuing it and the endpoint
path under `/api`. -/
structure RemoteCall where
  wrapper : String
  endpoint : String

/-- `establishmentService.list_establishments`: GET the establishment
list through `apiClientFetch`. -/
def list_establishments_call : RemoteCall :=
  { wrapper := "apiClientFetch", endpoint := "/catalog/public/establishments/" }

/-- `establishmentService.list_establishment_by_lot`: GET the lot/slot
status of one establishment through `apiClientFetch`. -/
def list_establishment_by_lot_call (id_establishment : String) : RemoteCall :=
  { wrapper := "apiClientFetch",
    endpoint := "/catalog/public/establishments/" ++ id_establishment ++ "/lots/" }

/-- `establishmentService.get_establishment_info`: GET one establishment
through `apiServerFetch`. -/
def get_establishment_info_call (id_establishment : String) : RemoteCall :=
  { wrapper := "apiServerFetch",
    endpoint := "/catalog/establishments/" ++ id_establishment ++ "/" }

/-- `userService.list_establishments`: same endpoint as the
establishment-service listing. -/
def userService_list_call : RemoteCall :=
  { wrapper := "apiClientFetch", endpoint := "/catalog/public/establishments/" }

/-- `getUser` of `lib/auth/getUser.ts`: GET the profile through `apiFetch`. -/
def getUser_call : RemoteCall :=
  { wrapper := "apiFetch", endpoint := "/accounts/user/profile/" }

/-- `login` of `lib/auth/login.ts`: POST through the `forAuth` axios client. -/
def login_call : RemoteCall :=
  { wrapper := "forAuth", endpoint := "/accounts/auth/login/" }

/-- `register` of `lib/auth/register.ts`: POST through the `forAuth` axios client. -/
def register_call : RemoteCall :=
  { wrapper := "forAuth", endpoint := "/accounts/user/register/" }

/-- The refresh POST issued inside both `refreshAccessToken` variants. -/
def refresh_call : RemoteCall :=
  { wrapper := "fetch", endpoint := "/accounts/auth/refresh/" }

/-- Modelled from the spec: `NavBar` imports `logout` from
`lib/auth/logout`, a file not present in the sources; the spec's endpoint
list (establishment listing, lot/slot status, user profile,
login/register/refresh) names no logout endpoint, so `logout` is modelled
as performing no remote call. -/
def logout_calls : List RemoteCall := []

/-- Every remote call the frontend performs, over an arbitrary
establishment id. -/
def frontendRemoteCalls (id_establishment : String) : List RemoteCall :=
  [list_establishments_call,
   list_establishment_by_lot_call id_establishment,
   get_establishment_info_call id_establishment,
   userService_list_call,
   getUser_call,
   login_call,
   register_call,
   refresh_call] ++ logout_calls

/-- The endpoint families listed by the claim, instantiated at an
establishment id. -/
def specEndpointFamilies (id_establishment : String) : List String :=
  ["/catalog/public/establishments/",
   "/catalog/public/establishments/" ++ id_establishment ++ "/lots/",
   "/catalog/establishments/" ++ id_establishment ++ "/",
   "/accounts/user/profile/",
   "/accounts/auth/login/",
   "/accounts/user/register/",
   "/accounts/auth/refresh/"]

/-- C4 (confirmed): the endpoints hit by the frontend's remote calls are
exactly the endpoint families the spec lists: establishment listing,
lot/slot status, establishment detail, user profile, login, register and
refresh. -/
theorem frontend_endpoint_inventory (id_establishment : String) (e : String) :
    e ∈ (frontendRemoteCalls id_establishment).map RemoteCall.endpoint ↔
      e ∈ specEndpointFamilies id_establishment := by
  simp only [frontendRemoteCalls, specEndpointFamilies, logout_calls,
    list_establishments_call, list_establishment_by_lot_call,
    get_establishment_info_call, userService_list_call, getUser_call,
    login_call, register_call, refresh_call,
    List.map_append, List.map_cons, List.map_nil, List.append_nil,
    List.mem_cons, List.not_mem_nil, or_false]
  tauto

/-! ## Claim C7: `lib/auth/login.ts` and `lib/auth/register.ts`

The axios call `forAuth.post(endpoint, credentials)` is an oracle
`post : Except JVal JVal`: `.ok data` is the parsed body of a 2xx
response, `.error err` the thrown axios error object. -/

/-- Result object of `login`/`register`: `ok` plus the `message` field
(`undefined` on success, where the source returns an object without it). -/
structure AuthResult where
  ok : Bool
  message : JVal

/-- The catch block of `login`: build the failure result with message
`err.response?.data.detail || "Erro no tentar entrar"`.  The optional
chain stops at a nullish `response`; a nullish `data` makes the `.detail`
read throw out of the catch block. -/
def loginCatch (err : JVal) : Except JVal AuthResult :=
  let resp := jsGetFieldOpt err "response"
  if resp.isNullish then
    .ok { ok := false, message := jsOr .undefined (.str "Erro no tentar entrar") }
  else
    match jsGetField resp "data" with
    | .error e => .error e
    | .ok d =>
      match jsGetField d "detail" with
      | .error e => .error e
      | .ok det => .ok { ok := false, message := jsOr det (.str "Erro no tentar entrar") }

/-- `login` of `lib/auth/login.ts`: on a successful POST set the
accessToken cookie (httpOnly false, maxAge 900) to `data.access` and the
refreshToken cookie (httpOnly true, maxAge 2592000) to `data.refresh` and
return ok; any throw inside the try block lands in `loginCatch`. -/
def login (post : Except JVal JVal) (cs : CookieStore) :
    Except JVal (AuthResult × CookieStore) :=
  match post with
  | .error err =>
    (match loginCatch err with
     | .error e => .error e
     | .ok a => .ok (a, cs))
  | .ok data =>
    match jsGetField data "access" with
    | .error terr =>
      (match loginCatch terr with
       | .error e => .error e
       | .ok a => .ok (a, cs))
    | .ok acc =>
      match jsGetField data "refresh" with
      | .error terr =>
        (match loginCatch terr with
         | .error e => .error e
         | .ok a => .ok (a, setAccessCookie cs acc))
      | .ok ref =>
        .ok ({ ok := true, message := .undefined }, setRefreshCookie (setAccessCookie cs acc) ref)

/-- The catch block of `register`: message
`err.response.data.username || err.response.data.email ||
err.response.data.password`, with no optional chaining, evaluated with
JavaScript short-circuiting. -/
def registerCatch (err : JVal) : Except JVal AuthResult :=
  match jsGetField err "response" with
  | .error e => .error e
  | .ok resp =>
    match jsGetField resp "data" with
    | .error e => .error e
    | .ok d =>
      match jsGetField d "username" with
      | .error e => .error e
      | .ok u =>
        if jsTruthy u then .ok { ok := false, message := u }
        else
          match jsGetField d "email" with
          | .error e => .error e
          | .ok em =>
            if jsTruthy em then .ok { ok := false, message := em }
            else
              match jsGetField d "password" with
              | .error e => .error e
              | .ok pw => .ok { ok := false, message := pw }

/-- `register` of `lib/auth/register.ts`: like `login` but the tokens sit
under `data.tokens` and failures report the field errors. -/
def register (post : Except JVal JVal) (cs : CookieStore) :
    Except JVal (AuthResult × CookieStore) :=
  match post with
  | .error err =>
    (match registerCatch err with
     | .error e => .error e
     | .ok a => .ok (a, cs))
  | .ok data =>
    match jsGetField data "tokens" with
    | .error terr =>
      (match registerCatch terr with
       | .error e => .error e
       | .ok a => .ok (a, cs))
    | .ok toks =>
      match jsGetField toks "access" with
      | .error terr =>
        (match registerCatch terr with
         | .error e => .error e
         | .ok a => .ok (a, cs))
      | .ok acc =>
        match jsGetField toks "refresh" with
        | .error terr =>
          (match registerCatch terr with
           | .error e => .error e
           | .ok a => .ok (a, setAccessCookie cs acc))
        | .ok ref =>
          .ok ({ ok := true, message := .undefined }, setRefreshCookie (setAccessCookie cs acc) ref)

/-- C7 (confirmed): a successful login or register sets exactly the two
cookies, accessToken with httpOnly false and maxAge 900 seconds and
refreshToken with httpOnly true and maxAge 2592000 seconds, and returns
ok true; a backend rejection yields ok false with the computed error
message and leaves the cookie state unchanged. -/
theorem login_register_cookies :
    accessAttrs.httpOnly = false ∧ accessAttrs.maxAge = 900 ∧
    refreshAttrs.httpOnly = true ∧ refreshAttrs.maxAge = 2592000 ∧
    (∀ cs acc ref, setRefreshCookie (setAccessCookie cs acc) ref =
      { accessToken := some { value := acc, attrs := accessAttrs },
        refreshToken := some { value := ref, attrs := refreshAttrs } }) ∧
    (∀ cs data acc ref, jsGetField data "access" = .ok acc →
      jsGetField data "refresh" = .ok ref →
      login (.ok data) cs
        = .ok ({ ok := true, message := .undefined },
               setRefreshCookie (setAccessCookie cs acc) ref)) ∧
    (∀ cs err a, loginCatch err = .ok a →
      login (.error err) cs = .ok (a, cs) ∧ a.ok = false ∧ jsTruthy a.message = true) ∧
    (∀ cs data toks acc ref, jsGetField data "tokens" = .ok toks →
      jsGetField toks "access" = .ok acc → jsGetField toks "refresh" = .ok ref →
      register (.ok data) cs
        = .ok ({ ok := true, message := .undefined },
               setRefreshCookie (setAccessCookie cs acc) ref)) ∧
    (∀ cs err a, registerCatch err = .ok a →
      register (.error err) cs = .ok (a, cs) ∧ a.ok = false) := by
  refine ⟨rfl, rfl, rfl, rfl, ?_, ?_, ?_, ?_, ?_⟩
  · intro cs acc ref
    rfl
  · intro cs data acc ref hacc href
    simp only [login, hacc, href]
  · intro cs err a h
    refine ⟨by simp only [login, h], ?_, ?_⟩
    · revert h
      simp only [loginCatch]
      split
      · intro h
        rw [Except.ok.injEq] at h
        rw [← h]
      · split
        · intro h; exact absurd h (by simp)
        · split
          · intro h; exact absurd h (by simp)
          · intro h
            rw [Except.ok.injEq] at h
            rw [← h]
    · revert h
      simp only [loginCatch]
      split
      · intro h
        rw [Except.ok.injEq] at h
        rw [← h]
        rfl
      · split
        · intro h; exact absurd h (by simp)
        · split
          · intro h; exact absurd h (by simp)
          · rename_i det hdet
            intro h
            rw [Except.ok.injEq] at h
            rw [← h]
            simp only [jsOr]
            split
            · assumption
            · rfl
  · intro cs data toks acc ref htoks hacc href
    simp only [register, htoks, hacc, href]
  · intro cs err a h
    refine ⟨by simp only [register, h], ?_⟩
    revert h
    simp only [registerCatch]
    split
    · intro h; exact absurd h (by simp)
    · split
      · intro h; exact absurd h (by simp)
      · split
        · intro h; exact absurd h (by simp)
        · split
          · intro h
            rw [Except.ok.injEq] at h
            rw [← h]
          · split
            · intro h; exact absurd h (by simp)
            · split
              · intro h
                rw [Except.ok.injEq] at h
                rw [← h]
              · split
                · intro h; exact absurd h (by simp)
                · intro h
                  rw [Except.ok.injEq] at h
                  rw [← h]

/-- Witness for C7: a concrete successful login and a concrete rejected
register. -/
theorem login_register_cookies_witness :
    login (.ok (jobj [("access", .str "a1"), ("refresh", .str "r1")]))
        { accessToken := none, refreshToken := none }
      = .ok ({ ok := true, message := .undefined },
             { accessToken := some { value := .str "a1", attrs := accessAttrs },
               refreshToken := some { value := .str "r1", attrs := refreshAttrs } }) ∧
    register (.error (jobj [("response", jobj [("data",
        jobj [("username", .str "taken")])])]))
        { accessToken := none, refreshToken := none }
      = .ok ({ ok := false, message := .str "taken" },
             { accessToken := none, refreshToken := none }) := by
  constructor
  · have h := login_register_cookies.2.2.2.2.2.1
      { accessToken := none, refreshToken := none }
      (jobj [("access", .str "a1"), ("refresh", .str "r1")])
      (.str "a1") (.str "r1") rfl rfl
    rw [h]
    rw [login_register_cookies.2.2.2.2.1]
  · exact (login_register_cookies.2.2.2.2.2.2.2.2
      { accessToken := none, refreshToken := none }
      (jobj [("response", jobj [("data", jobj [("username", .str "taken")])])])
      { ok := false, message := .str "taken" } rfl).1

/-! ## Claim C10: `lib/auth/getUser.ts` -/

/-- The user object built by `getUser` from the profile body; every field
is read with optional chaining and may be `undefined`. -/
structure UserObj where
  id_user : JVal
  first_name : JVal
  last_name : JVal
  email : JVal
  username : JVal
  id_address : JVal

/-- The user object literal of `getUser`: optional-chained reads of the
parsed profile body, with `id_address` further collapsed by
`?? undefined`. -/
def mkUser (data : JVal) : UserObj :=
  { id_user := jsGetFieldOpt data "id",
    first_name := jsGetFieldOpt data "first_name",
    last_name := jsGetFieldOpt data "last_name",
    email := jsGetFieldOpt data "email",
    username := jsGetFieldOpt data "username",
    id_address :=
      match jsGetFieldOpt data "id_address" with
      | .null => .undefined
      | v => v }

/-- The result of `getUser`. -/
structure GetUserRes where
  isLogged : Bool
  user : Option UserObj

/-- `getUser` of `lib/auth/getUser.ts`: with a falsy accessToken cookie it
returns not-logged without touching the network; otherwise it calls
`apiFetch` on the profile endpoint and parses the body, returning
not-logged from the catch block if either throws.  The second component
reports whether the backend was contacted. -/
def getUser (cs : CookieStore) (net : Option JVal → Except JVal Resp)
    (rnet : Except JVal Resp) : GetUserRes × Bool :=
  if jsTruthy (cookieVal cs.accessToken) = false then
    ({ isLogged := false, user := none }, false)
  else
    match apiFetch cs net rnet with
    | .error _ => ({ isLogged := false, user := none }, true)
    | .ok (resp, _, _) =>
      match resp.json with
      | .error _ => ({ isLogged := false, user := none }, true)
      | .ok data => ({ isLogged := true, user := some (mkUser data) }, true)

/-- C10 (confirmed): `getUser` never throws (it is a total function into
results); with no accessToken cookie it returns not-logged without
contacting the backend; when the profile fetch throws or the body fails to
parse it returns not-logged; and it returns logged-in exactly when a
profile response was obtained and parsed, with the user built from the
parsed body. -/
theorem getUser_total_and_guarded (cs : CookieStore)
    (net : Option JVal → Except JVal Resp) (rnet : Except JVal Resp) :
    (cs.accessToken = none →
      getUser cs net rnet = ({ isLogged := false, user := none }, false)) ∧
    (jsTruthy (cookieVal cs.accessToken) = false →
      getUser cs net rnet = ({ isLogged := false, user := none }, false)) ∧
    (∀ e, jsTruthy (cookieVal cs.accessToken) = true → apiFetch cs net rnet = .error e →
      getUser cs net rnet = ({ isLogged := false, user := none }, true)) ∧
    (∀ resp cs2 log, jsTruthy (cookieVal cs.accessToken) = true →
      apiFetch cs net rnet = .ok (resp, cs2, log) → (∀ e, resp.json = .error e →
      getUser cs net rnet = ({ isLogged := false, user := none }, true)) ∧
      (∀ data, resp.json = .ok data →
      getUser cs net rnet = ({ isLogged := true, user := some (mkUser data) }, true))) ∧
    ((getUser cs net rnet).1.isLogged = true →
      ∃ resp cs2 log data, apiFetch cs net rnet = .ok (resp, cs2, log) ∧
        resp.json = .ok data ∧
        getUser cs net rnet = ({ isLogged := true, user := some (mkUser data) }, true)) := by
  refine ⟨?_, ?_, ?_, ?_, ?_⟩
  · intro h
    simp [getUser, h, cookieVal, jsTruthy]
  · intro h
    simp [getUser, h]
  · intro e hc haf
    simp only [getUser, hc]
    simp [haf]
  · intro resp cs2 log hc haf
    constructor
    · intro e hjson
      simp only [getUser, hc]
      simp only [haf, hjson]
      simp
    · intro data hjson
      simp only [getUser, hc]
      simp only [haf, hjson]
      simp
  · intro hlog
    cases hc : jsTruthy (cookieVal cs.accessToken) with
    | false =>
      rw [getUser] at hlog
      simp only [hc, if_true] at hlog
      exact absurd hlog (by simp)
    | true =>
      cases haf : apiFetch cs net rnet with
      | error e =>
        rw [getUser] at hlog
        simp only [hc, haf] at hlog
        exact absurd hlog (by simp)
      | ok out =>
        obtain ⟨resp, cs2, log⟩ := out
        cases hjson : resp.json with
        | error e =>
          rw [getUser] at hlog
          simp only [hc, haf, hjson] at hlog
          exact absurd hlog (by simp)
        | ok data =>
          refine ⟨resp, cs2, log, data, rfl, hjson, ?_⟩
          simp only [getUser, hc, haf, hjson]
          simp

/-- Witness for C10: concrete runs for the no-cookie and the logged-in
cases. -/
theorem getUser_total_and_guarded_witness :
    getUser { accessToken := none, refreshToken := none }
        (fun _ => .ok { status := 200, json := .ok (jobj [("id", .num 7)]) })
        (.ok { status := 200, json := .ok .null })
      = ({ isLogged := false, user := none }, false) ∧
    getUser c1cs
        (fun _ => .ok { status := 200, json := .ok (jobj [("id", .num 7)]) })
        (.ok { status := 200, json := .ok .null })
      = ({ isLogged := true,
           user := some (mkUser (jobj [("id", .num 7)])) }, true) := by
  constructor
  · exact (getUser_total_and_guarded { accessToken := none, refreshToken := none }
      (fun _ => .ok { status := 200, json := .ok (jobj [("id", .num 7)]) })
      (.ok { status := 200, json := .ok .null })).1 rfl
  · exact (((getUser_total_and_guarded c1cs
      (fun _ => .ok { status := 200, json := .ok (jobj [("id", .num 7)]) })
      (.ok { status := 200, json := .ok .null })).2.2.2.1
      { status := 200, json := .ok (jobj [("id", .num 7)]) } c1cs
      [.main (some (.str "tok"))] rfl rfl).2 (jobj [("id", .num 7)]) rfl)

/-! ## `establishmentService` (C6) and `ParkContainer.loadPark` (C9) -/

/-- The body of the try block shared by the three `establishmentService`
functions: on a non-ok response, parse the body with a fallback to null,
and throw (then return from the catch) the payload or the fallback object
with field error = Erro desconhecido; on an ok response return the parsed
body (a parse failure throws and is returned by the catch). -/
def serviceTryBody (resp : Resp) : JVal :=
  if resp.ok = false then
    let errorData := match resp.json with
      | .ok d => d
      | .error _ => JVal.null
    jsOr errorData (jobj [("error", .str "Erro desconhecido")])
  else
    match resp.json with
    | .ok d => d
    | .error e => e

/-- `establishmentService.list_establishments`: fetch the establishment
list through `apiClientFetch`; every throw is caught and returned. -/
def list_establishments (cookieStr : String)
    (net : Option JVal → Except JVal Resp) : JVal :=
  match apiClientFetch cookieStr net with
  | .error e => e
  | .ok (resp, _) => serviceTryBody resp

/-- `establishmentService.list_establishment_by_lot`: same body over the
lots endpoint of one establishment. -/
def list_establishment_by_lot (cookieStr : String)
    (net : Option JVal → Except JVal Resp) : JVal :=
  match apiClientFetch cookieStr net with
  | .error e => e
  | .ok (resp, _) => serviceTryBody resp

/-- `establishmentService.get_establishment_info`: same body through
`apiServerFetch` (which may update the cookie store). -/
def get_establishment_info (cs : CookieStore)
    (net : Option JVal → Except JVal Resp) (rnet : Except JVal Resp) :
    JVal × CookieStore :=
  match apiServerFetch cs net rnet with
  | .error e => (e, cs)
  | .ok (resp, cs2, _) => (serviceTryBody resp, cs2)

/-- A lot as converted by `loadPark` (interface `Lot`). -/
structure Lot where
  id_lot : String
  id_establishment : JVal
  name : JVal
  lot_code : String

/-- A slot as converted by `loadPark` (interface `Slot`). -/
structure Slot where
  id_slot : String
  id_lot : String
  slot_code : String
  id_slot_type : JVal
  status : Bool

/-- A slot type as converted by `loadPark` (interface `SlotType`). -/
structure SlotType where
  id_slot_type : JVal
  name : JVal

/-- `data.establishment_id?.toString()` in the lots conversion. -/
def estIdStr (data : JVal) : JVal :=
  match jsGetFieldOpt data "establishment_id" with
  | .undefined => .undefined
  | .null => .undefined
  | v => .str (jsToStr v)

/-- The `Object.entries(data.lots).map(...)` building the converted lots:
reads `lotValue.lot_name` (which throws on a nullish lot value). -/
def lotsConvert (estId : JVal) : List (String × JVal) → Except JVal (List Lot)
  | [] => .ok []
  | (lotCode, lotValue) :: rest =>
    match jsGetField lotValue "lot_name" with
    | .error e => .error e
    | .ok name =>
      match lotsConvert estId rest with
      | .error e => .error e
      | .ok ls =>
          .ok ({ id_lot := lotCode, id_establishment := estId,
                 name := name, lot_code := lotCode } :: ls)

/-- The per-slot step of the conversion: push the converted slot (status
is the strict comparison `slotData.status === "FREE"`) and produce the
record key `String(slotData.slot_type)` with the `SlotType` candidate. -/
def convertSlot (lotCode slotCode : String) (slotData : JVal) :
    Except JVal (Slot × String × SlotType) :=
  match jsGetField slotData "slot_type" with
  | .error e => .error e
  | .ok st =>
    match jsGetField slotData "status" with
    | .error e => .error e
    | .ok sv =>
      .ok ({ id_slot := slotCode, id_lot := lotCode, slot_code := slotCode,
             id_slot_type := st, status := jsStrictEqStr sv "FREE" },
           jsToStr st,
           { id_slot_type := st, name := st })

/-- `if (!slotTypesConvertedMap[key]) slotTypesConvertedMap[key] = ty`:
insert under the coerced key only when the key is not yet present (the
stored values are always truthy objects). -/
def insertSlotType (m : List (String × SlotType)) (key : String) (ty : SlotType) :
    List (String × SlotType) :=
  if (m.find? (fun p => p.1 == key)).isSome then m else m ++ [(key, ty)]

/-- The inner `Object.entries(lotValue.slots).forEach` of the conversion,
accumulating pushed slots and the slot-type record. -/
def slotLoop (lotCode : String) : List (String × JVal) → List Slot →
    List (String × SlotType) → Except JVal (List Slot × List (String × SlotType))
  | [], acc, m => .ok (acc, m)
  | (slotCode, slotData) :: rest, acc, m =>
    match convertSlot lotCode slotCode slotData with
    | .error e => .error e
    | .ok (s, key, ty) => slotLoop lotCode rest (acc ++ [s]) (insertSlotType m key ty)

/-- The outer `Object.entries(data.lots).forEach` of the conversion:
`Object.entries(lotValue.slots)` throws when `slots` is nullish. -/
def slotsPass : List (String × JVal) → List Slot → List (String × SlotType) →
    Except JVal (List Slot × List (String × SlotType))
  | [], acc, m => .ok (acc, m)
  | (lotCode, lotValue) :: rest, acc, m =>
    match jsGetField lotValue "slots" with
    | .error e => .error e
    | .ok slotsVal =>
      match jsEntries slotsVal with
      | .error e => .error e
      | .ok sentries =>
        match slotLoop lotCode sentries acc m with
        | .error e => .error e
        | .ok out => slotsPass rest out.1 out.2

/-- The whole conversion inside `loadPark`'s try block: reject falsy data
(`throw new Error("Nenhum dado retornado")`), convert lots, then slots and
slot types (`Object.values` of the record). -/
def loadParkConvert (data : JVal) :
    Except JVal (List Lot × List Slot × List SlotType) :=
  if jsTruthy data = false then .error (.str "Error: Nenhum dado retornado")
  else
    match jsGetField data "lots" with
    | .error e => .error e
    | .ok lotsVal =>
      match jsEntries lotsVal with
      | .error e => .error e
      | .ok entries =>
        match lotsConvert (estIdStr data) entries with
        | .error e => .error e
        | .ok lots =>
          match slotsPass entries [] [] with
          | .error e => .error e
          | .ok out => .ok (lots, out.1, out.2.map (fun p => p.2))

/-- The component state touched by `loadPark`: the three lists and the
alert-notification state. -/
structure ParkState where
  lots : List Lot
  slots : List Slot
  slotTypes : List SlotType
  alertOpen : Bool
  alertMessage : String
  alertType : String

/-- `loadPark` of `ParkContainer` applied to the value returned by
`list_establishment_by_lot`: on success set the three lists; on any
caught throw reset them to empty and open the error toast. -/
def loadPark (data : JVal) (s : ParkState) : ParkState :=
  match loadParkConvert data with
  | .ok out => { s with lots := out.1, slots := out.2.1, slotTypes := out.2.2 }
  | .error _ =>
    { s with
        lots := [],
        slots := [],
        slotTypes := [],
        alertOpen := true,
        alertMessage := "Erro ao carregar estabelecimentos.",
        alertType := "error" }

/-! ## Claim C9: slot conversion invariants -/

/-- `jsStrictEqStr` holds exactly on the equal string value. -/
theorem jsStrictEqStr_eq_true_iff (v : JVal) (s : String) :
    jsStrictEqStr v s = true ↔ v = .str s := by
  cases v <;> simp [jsStrictEqStr]

/-- What `convertSlot` produces: the key is the string coercion of the
slot's `slot_type` and the `SlotType` candidate carries that value. -/
theorem convertSlot_spec (lotCode slotCode : String) (slotData : JVal)
    (s : Slot) (key : String) (ty : SlotType)
    (h : convertSlot lotCode slotCode slotData = .ok (s, key, ty)) :
    key = jsToStr s.id_slot_type ∧ ty.id_slot_type = s.id_slot_type := by
  revert h
  simp only [convertSlot]
  cases hst : jsGetField slotData "slot_type" with
  | error e => simp
  | ok st =>
    cases hsv : jsGetField slotData "status" with
    | error e => simp
    | ok sv =>
      intro h
      rw [Except.ok.injEq, Prod.mk.injEq, Prod.mk.injEq] at h
      obtain ⟨h1, h2, h3⟩ := h
      rw [← h1, ← h2, ← h3]
      exact ⟨rfl, rfl⟩

/-- Invariant tying the slot-type record to the slots accumulated so far:
keys are the coercions of the stored values, keys are distinct, and the
keys are exactly the coerced `slot_type` values of the accumulated
slots. -/
def SlotTypeInv (acc : List Slot) (m : List (String × SlotType)) : Prop :=
  (∀ p ∈ m, p.1 = jsToStr p.2.id_slot_type) ∧
  (m.map Prod.fst).Nodup ∧
  (∀ k, k ∈ m.map Prod.fst ↔ ∃ s ∈ acc, jsToStr s.id_slot_type = k)

theorem slotTypeInv_nil : SlotTypeInv [] [] := by
  refine ⟨by simp, by simp, by simp⟩

theorem insertSlotType_inv {acc : List Slot} {m : List (String × SlotType)}
    {key : String} {ty : SlotType} (s : Slot) (hinv : SlotTypeInv acc m)
    (hkey : key = jsToStr s.id_slot_type) (hty : ty.id_slot_type = s.id_slot_type) :
    SlotTypeInv (acc ++ [s]) (insertSlotType m key ty) := by
  obtain ⟨h1, h2, h3⟩ := hinv
  unfold insertSlotType
  by_cases hf : (m.find? (fun p => p.1 == key)).isSome
  · rw [if_pos hf]
    refine ⟨h1, h2, ?_⟩
    intro k
    constructor
    · intro hk
      obtain ⟨s2, hs2, he⟩ := (h3 k).1 hk
      exact ⟨s2, List.mem_append_left _ hs2, he⟩
    · rintro ⟨s2, hs2, he⟩
      rcases List.mem_append.1 hs2 with hmem | hmem
      · exact (h3 k).2 ⟨s2, hmem, he⟩
      · have hss : s2 = s := by simpa using hmem
        subst hss
        rw [List.find?_isSome] at hf
        obtain ⟨p, hp, hpk⟩ := hf
        have hpk2 : p.1 = key := by simpa using hpk
        have hkmem : key ∈ m.map Prod.fst := hpk2 ▸ List.mem_map_of_mem Prod.fst hp
        rw [← he, ← hkey]
        exact hkmem
  · rw [if_neg hf]
    have hknot : key ∉ m.map Prod.fst := by
      intro hk
      apply hf
      rw [List.find?_isSome]
      obtain ⟨p, hp, he⟩ := List.mem_map.1 hk
      exact ⟨p, hp, by simp [he]⟩
    refine ⟨?_, ?_, ?_⟩
    · intro p hp
      rcases List.mem_append.1 hp with hmem | hmem
      · exact h1 p hmem
      · have hp2 : p = (key, ty) := by simpa using hmem
        subst hp2
        simpa [hty] using hkey
    · rw [List.map_append, List.nodup_append]
      refine ⟨h2, by simp, ?_⟩
      intro a ha hb
      have hab : a = key := by simpa using hb
      subst hab
      exact hknot ha
    · intro k
      rw [List.map_append, List.mem_append]
      simp only [List.map_cons, List.map_nil, List.mem_singleton]
      constructor
      · rintro (hk | hk)
        · obtain ⟨s2, hs2, he⟩ := (h3 k).1 hk
          exact ⟨s2, List.mem_append_left _ hs2, he⟩
        · exact ⟨s, List.mem_append_right _ (by simp), by rw [hk, hkey]⟩
      · rintro ⟨s2, hs2, he⟩
        rcases List.mem_append.1 hs2 with hmem | hmem
        · exact Or.inl ((h3 k).2 ⟨s2, hmem, he⟩)
        · have hss : s2 = s := by simpa using hmem
          subst hss
          exact Or.inr (by rw [← he, hkey])

theorem slotLoop_inv (lotCode : String) (entries : List (String × JVal)) :
    ∀ (acc : List Slot) (m : List (String × SlotType))
      (out : List Slot × List (String × SlotType)),
      SlotTypeInv acc m → slotLoop lotCode entries acc m = .ok out →
      SlotTypeInv out.1 out.2 := by
  induction entries with
  | nil =>
    intro acc m out hinv h
    simp only [slotLoop] at h
    rw [Except.ok.injEq] at h
    rw [← h]
    exact hinv
  | cons e rest ih =>
    intro acc m out hinv h
    obtain ⟨slotCode, slotData⟩ := e
    cases hc : convertSlot lotCode slotCode slotData with
    | error err => rw [slotLoop, hc] at h; exact absurd h (by simp)
    | ok trip =>
      obtain ⟨s, key, ty⟩ := trip
      rw [slotLoop, hc] at h
      obtain ⟨hkey, hty⟩ := convertSlot_spec lotCode slotCode slotData s key ty hc
      exact ih (acc ++ [s]) (insertSlotType m key ty) out
        (insertSlotType_inv s hinv hkey hty) h

theorem slotsPass_inv (entries : List (String × JVal)) :
    ∀ (acc : List Slot) (m : List (String × SlotType))
      (out : List Slot × List (String × SlotType)),
      SlotTypeInv acc m → slotsPass entries acc m = .ok out →
      SlotTypeInv out.1 out.2 := by
  induction entries with
  | nil =>
    intro acc m out hinv h
    simp only [slotsPass] at h
    rw [Except.ok.injEq] at h
    rw [← h]
    exact hinv
  | cons e rest ih =>
    intro acc m out hinv h
    obtain ⟨lotCode, lotValue⟩ := e
    cases hs : jsGetField lotValue "slots" with
    | error err => simp only [slotsPass, hs] at h; exact absurd h (by simp)
    | ok slotsVal =>
      cases hent : jsEntries slotsVal with
      | error err => simp only [slotsPass, hs, hent] at h; exact absurd h (by simp)
      | ok sentries =>
        cases hloop : slotLoop lotCode sentries acc m with
        | error err => simp only [slotsPass, hs, hent, hloop] at h; exact absurd h (by simp)
        | ok mid =>
          simp only [slotsPass, hs, hent, hloop] at h
          exact ih mid.1 mid.2 out
            (slotLoop_inv lotCode sentries acc m mid hinv hloop) h

/-- The payload used to refute the claim: two slots whose `slot_type`
values are the number 1 and the string "1" — distinct JSON values with the
same property-key coercion. -/
def c9data : JVal :=
  jobj [("lots", jobj [("L01", jobj [
    ("lot_name", .str "P1"),
    ("slots", jobj [
      ("V1", jobj [("slot_type", .num 1), ("status", .str "FREE")]),
      ("V2", jobj [("slot_type", .str "1"), ("status", .str "OCCUPIED")])])])])]

/-- C9 (counterexample): on `c9data` the payload's slots carry the two
distinct `slot_type` values `1` and `"1"`, yet the produced `slotTypes`
array has a single entry and none of its entries carries the value `"1"`:
the record keys are string coercions, so distinct values with equal
coercions collapse, contradicting one entry per distinct value. -/
theorem loadPark_slot_type_coercion_cex :
    loadParkConvert c9data
      = .ok ([{ id_lot := "L01", id_establishment := .undefined, name := .str "P1",
                lot_code := "L01" }],
             [{ id_slot := "V1", id_lot := "L01", slot_code := "V1",
                id_slot_type := .num 1, status := true },
              { id_slot := "V2", id_lot := "L01", slot_code := "V2",
                id_slot_type := .str "1", status := false }],
             [{ id_slot_type := .num 1, name := .num 1 }]) ∧
    JVal.num 1 ≠ JVal.str "1" ∧
    ¬ ∃ ty ∈ ([{ id_slot_type := JVal.num 1, name := JVal.num 1 }] : List SlotType),
        ty.id_slot_type = JVal.str "1" := by
  refine ⟨rfl, by simp, by simp⟩

/-- C9 (amended): for every backend payload, `loadPark` marks a slot free
exactly when the slot's `status` value is the string FREE (a strict
comparison, so any other string or non-string value yields occupied), and
the produced `slotTypes` array contains exactly one entry per distinct
property-key coercion `String(slot_type)` occurring among the converted
slots — values with equal string coercions (such as `1` and `"1"`)
collapse into one entry. -/
theorem loadPark_slot_conversion :
    (∀ (lotCode slotCode : String) (slotData st sv : JVal) (s : Slot) (key : String)
        (ty : SlotType),
      jsGetField slotData "slot_type" = .ok st → jsGetField slotData "status" = .ok sv →
      convertSlot lotCode slotCode slotData = .ok (s, key, ty) →
      ((s.status = true ↔ sv = .str "FREE") ∧ s.id_slot_type = st ∧ key = jsToStr st)) ∧
    (∀ (data : JVal) (lots : List Lot) (slots : List Slot) (st : List SlotType),
      loadParkConvert data = .ok (lots, slots, st) →
      ((st.map (fun ty => jsToStr ty.id_slot_type)).Nodup ∧
       ∀ k, (∃ ty ∈ st, jsToStr ty.id_slot_type = k) ↔
            ∃ s ∈ slots, jsToStr s.id_slot_type = k)) := by
  constructor
  · intro lotCode slotCode slotData st sv s key ty hst hsv hconv
    rw [convertSlot, hst, hsv, Except.ok.injEq, Prod.mk.injEq, Prod.mk.injEq] at hconv
    obtain ⟨h1, h2, h3⟩ := hconv
    rw [← h1, ← h2]
    exact ⟨jsStrictEqStr_eq_true_iff sv "FREE", rfl, rfl⟩
  · intro data lots slots st h
    cases hd : jsTruthy data with
    | false =>
      have hv : loadParkConvert data = .error (.str "Error: Nenhum dado retornado") := by
        simp only [loadParkConvert, hd]; simp
      rw [hv] at h; exact absurd h (by simp)
    | true =>
      cases hlots : jsGetField data "lots" with
      | error e =>
        have hv : loadParkConvert data = .error e := by
          simp only [loadParkConvert, hd, hlots]; simp
        rw [hv] at h; exact absurd h (by simp)
      | ok lotsVal =>
        cases hent : jsEntries lotsVal with
        | error e =>
          have hv : loadParkConvert data = .error e := by
            simp only [loadParkConvert, hd, hlots, hent]; simp
          rw [hv] at h; exact absurd h (by simp)
        | ok entries =>
          cases hlc : lotsConvert (estIdStr data) entries with
          | error e =>
            have hv : loadParkConvert data = .error e := by
              simp only [loadParkConvert, hd, hlots, hent, hlc]; simp
            rw [hv] at h; exact absurd h (by simp)
          | ok lots0 =>
            cases hsp : slotsPass entries [] [] with
            | error e =>
              have hv : loadParkConvert data = .error e := by
                simp only [loadParkConvert, hd, hlots, hent, hlc, hsp]; simp
              rw [hv] at h; exact absurd h (by simp)
            | ok out =>
              have hv : loadParkConvert data
                  = .ok (lots0, out.1, out.2.map (fun p => p.2)) := by
                simp only [loadParkConvert, hd, hlots, hent, hlc, hsp]; simp
              rw [hv, Except.ok.injEq, Prod.mk.injEq, Prod.mk.injEq] at h
              obtain ⟨-, hsl, hst2⟩ := h
              have hinv := slotsPass_inv entries [] [] out slotTypeInv_nil hsp
              obtain ⟨i1, i2, i3⟩ := hinv
              have hmapeq : out.2.map Prod.fst
                  = (out.2.map (fun p => p.2)).map (fun ty => jsToStr ty.id_slot_type) := by
                rw [List.map_map]
                exact List.map_congr_left (fun p hp => i1 p hp)
              constructor
              · rw [← hst2, ← hmapeq]
                exact i2
              · intro k
                rw [← hst2, ← hsl]
                have hmem : (∃ ty ∈ out.2.map (fun p => p.2),
                    jsToStr ty.id_slot_type = k)
                    ↔ k ∈ (out.2.map (fun p => p.2)).map
                        (fun ty => jsToStr ty.id_slot_type) := by
                  rw [List.mem_map]
                rw [hmem, ← hmapeq]
                exact i3 k

/-- Witness for C9: the status comparison and the dedup property at
concrete inputs. -/
theorem loadPark_slot_conversion_witness :
    (({ id_slot := "V1", id_lot := "L01", slot_code := "V1",
        id_slot_type := JVal.num 1, status := true } : Slot).status = true ↔
      JVal.str "FREE" = JVal.str "FREE") ∧
    (([{ id_slot_type := JVal.num 1, name := JVal.num 1 }] : List SlotType).map
        (fun ty => jsToStr ty.id_slot_type)).Nodup := by
  constructor
  · exact (loadPark_slot_conversion.1 "L01" "V1"
      (jobj [("slot_type", .num 1), ("status", .str "FREE")]) (.num 1) (.str "FREE")
      { id_slot := "V1", id_lot := "L01", slot_code := "V1",
        id_slot_type := .num 1, status := true } "1"
      { id_slot_type := .num 1, name := .num 1 } rfl rfl rfl).1
  · exact (loadPark_slot_conversion.2 c9data
      [{ id_lot := "L01", id_establishment := .undefined, name := .str "P1",
         lot_code := "L01" }]
      [{ id_slot := "V1", id_lot := "L01", slot_code := "V1",
         id_slot_type := .num 1, status := true },
       { id_slot := "V2", id_lot := "L01", slot_code := "V2",
         id_slot_type := .str "1", status := false }]
      [{ id_slot_type := .num 1, name := .num 1 }] rfl).1

/-- C6 (counterexample): a non-ok response whose body parses to `null`.
The claim says the parsed error payload (`null`) is returned and reserves
the fallback object for unparsable bodies, but the source guards the
thrown payload with a truthiness test, so the falsy `null` payload is
replaced by the fallback object. -/
theorem service_falsy_error_payload_cex :
    Resp.ok { status := 400, json := .ok .null } = false ∧
    list_establishments "" (fun _ => .ok { status := 400, json := .ok .null })
      = jobj [("error", .str "Erro desconhecido")] ∧
    jobj [("error", .str "Erro desconhecido")] ≠ JVal.null := by
  refine ⟨rfl, rfl, by simp [jobj]⟩

/-- C6 (amended): every service function wraps its fetch in try/catch and
never throws to its caller: it returns the parsed body when the response
is ok (and the thrown parse error value when that body is unparsable),
and otherwise returns the parsed error payload when it is truthy, or the
object with field error = Erro desconhecido when the error body is
unparsable or parses to a falsy value such as null; a rejected fetch has
its thrown value returned.  On any load failure (any throw inside
`loadPark`'s try block) the UI loader resets its three lists to empty and
opens the error toast; a falsy service result is such a failure. -/
theorem service_error_handling :
    (∀ cookieStr net e, apiClientFetch cookieStr net = .error e →
      list_establishments cookieStr net = e) ∧
    (∀ cookieStr net resp log, apiClientFetch cookieStr net = .ok (resp, log) →
      ((resp.ok = true → ∀ d, resp.json = .ok d →
         list_establishments cookieStr net = d) ∧
       (resp.ok = true → ∀ pe, resp.json = .error pe →
         list_establishments cookieStr net = pe) ∧
       (resp.ok = false → ∀ d, resp.json = .ok d → jsTruthy d = true →
         list_establishments cookieStr net = d) ∧
       (resp.ok = false → ∀ d, resp.json = .ok d → jsTruthy d = false →
         list_establishments cookieStr net = jobj [("error", .str "Erro desconhecido")]) ∧
       (resp.ok = false → ∀ pe, resp.json = .error pe →
         list_establishments cookieStr net = jobj [("error", .str "Erro desconhecido")]))) ∧
    (∀ cookieStr net, list_establishment_by_lot cookieStr net
      = list_establishments cookieStr net) ∧
    (∀ data, jsTruthy data = false →
      loadParkConvert data = .error (.str "Error: Nenhum dado retornado")) ∧
    (∀ data s e, loadParkConvert data = .error e →
      loadPark data s
        = { lots := [], slots := [], slotTypes := [], alertOpen := true,
            alertMessage := "Erro ao carregar estabelecimentos.",
            alertType := "error" }) := by
  refine ⟨?_, ?_, ?_, ?_, ?_⟩
  · intro cookieStr net e hac
    simp only [list_establishments, hac]
  · intro cookieStr net resp log hac
    refine ⟨?_, ?_, ?_, ?_, ?_⟩
    · intro hok d hjson
      simp only [list_establishments, hac, serviceTryBody, hok, hjson]
      simp
    · intro hok pe hjson
      simp only [list_establishments, hac, serviceTryBody, hok, hjson]
      simp
    · intro hok d hjson ht
      simp only [list_establishments, hac, serviceTryBody, hok, hjson]
      simp [jsOr, ht]
    · intro hok d hjson ht
      simp only [list_establishments, hac, serviceTryBody, hok, hjson]
      simp [jsOr, ht]
    · intro hok pe hjson
      simp only [list_establishments, hac, serviceTryBody, hok, hjson]
      simp [jsOr, jsTruthy]
  · intro cookieStr net
    rfl
  · intro data hd
    simp only [loadParkConvert, hd]
    simp
  · intro data s e h
    simp only [loadPark, h]

/-- Witness for C6: an ok fetch of an empty list, the null error payload,
and the toast-reset behavior of `loadPark` on a falsy service result. -/
theorem service_error_handling_witness :
    list_establishments "" (fun _ => .ok { status := 200, json := .ok (jarr []) })
      = jarr [] ∧
    loadPark .null
        { lots := [], slots := [], slotTypes := [], alertOpen := false,
          alertMessage := "", alertType := "success" }
      = { lots := [], slots := [], slotTypes := [], alertOpen := true,
          alertMessage := "Erro ao carregar estabelecimentos.",
          alertType := "error" } := by
  constructor
  · exact ((service_error_handling.2.1 ""
      (fun _ => .ok { status := 200, json := .ok (jarr []) })
      { status := 200, json := .ok (jarr []) }
      [.main (getCookie "accessToken" "" |> authHeader)] rfl).1 rfl (jarr []) rfl)
  · exact (service_error_handling.2.2.2.2 .null
      { lots := [], slots := [], slotTypes := [], alertOpen := false,
        alertMessage := "", alertType := "success" }
      (.str "Error: Nenhum dado retornado")
      (service_error_handling.2.2.2.1 .null rfl))

/-! ## Claim C5: fixed-interval polling

The `useEffect` bodies that poll are data: whether the loader runs
synchronously at mount, the `setInterval` period in milliseconds, and
whether the effect returns a `clearInterval` cleanup.  `loaderFires` is
the timer semantics for one mount/unmount cycle: the component mounts at
time 0 (running the mount load if its guard allows), the interval fires at
every positive multiple of the period, and a cleanup cancels every tick at
or after the unmount time. -/

/-- The polling data of one `useEffect`. -/
structure Effect where
  mountRuns : Bool
  period : Nat
  cleanup : Bool

/-- `ParkContainer`: `loadPark()` unconditionally at mount,
`setInterval(loadPark, 15000)`, cleanup `clearInterval(interval)`. -/
def parkContainerEffect : Effect :=
  { mountRuns := true, period := 15000, cleanup := true }

/-- `EstablishmentContainer`: `loadEstablishments()` at mount only when
the pathname is `/` or `/search`, `setInterval(loadEstablishments, 1000)`,
cleanup `clearInterval(interval)`. -/
def establishmentContainerEffect (pathname : String) : Effect :=
  { mountRuns := pathname == "/" || pathname == "/search", period := 1000, cleanup := true }

/-- `SearchBar`: `loadEstablishments()` at mount only when the pathname is
`/search`, `setInterval(loadEstablishments, 15000)`, cleanup
`clearInterval(interval)`. -/
def searchBarEffect (pathname : String) : Effect :=
  { mountRuns := pathname == "/search", period := 15000, cleanup := true }

/-- Does the loader of an effect run at time `t` (milliseconds after
mount) when the component unmounts at time `unmount`? -/
def loaderFires (e : Effect) (unmount t : Nat) : Bool :=
  (t == 0 && e.mountRuns) ||
    (t != 0 && t % e.period == 0 && (!e.cleanup || decide (t < unmount)))

/-- C5 (counterexample): an `EstablishmentContainer` mounted while the
pathname is `/profile` does not run its loader at mount (its mount load is
guarded by the pathname), contradicting the claim that every polling
component runs its loader on mount; `ParkContainer` by contrast always
does. -/
theorem establishment_polling_mount_guard_cex :
    (establishmentContainerEffect "/profile").mountRuns = false ∧
    loaderFires (establishmentContainerEffect "/profile") 5000 0 = false ∧
    loaderFires parkContainerEffect 5000 0 = true := by
  refine ⟨rfl, rfl, rfl⟩

/-- C5 (amended): `ParkContainer` runs its loader at mount and then at
exactly the positive multiples of 15000 ms before unmount, with no fire at
or after unmount; `EstablishmentContainer` registers its 1000 ms timer the
same way but runs the mount load only when the pathname is `/` or
`/search`; `SearchBar` polls the establishment list at 15000 ms with its
mount load guarded by pathname `/search`. -/
theorem polling_schedule :
    (∀ u, loaderFires parkContainerEffect u 0 = true) ∧
    (∀ u t, 0 < t → t < u →
      (loaderFires parkContainerEffect u t = true ↔ t % 15000 = 0)) ∧
    (∀ u t, 0 < t → u ≤ t → loaderFires parkContainerEffect u t = false) ∧
    (∀ p u, loaderFires (establishmentContainerEffect p) u 0 = true ↔
      (p = "/" ∨ p = "/search")) ∧
    (∀ p u t, 0 < t → t < u →
      (loaderFires (establishmentContainerEffect p) u t = true ↔ t % 1000 = 0)) ∧
    (∀ p u t, 0 < t → u ≤ t →
      loaderFires (establishmentContainerEffect p) u t = false) ∧
    (∀ p u, loaderFires (searchBarEffect p) u 0 = true ↔ p = "/search") ∧
    (∀ p u t, 0 < t → t < u →
      (loaderFires (searchBarEffect p) u t = true ↔ t % 15000 = 0)) ∧
    (∀ p u t, 0 < t → u ≤ t → loaderFires (searchBarEffect p) u t = false) := by
  refine ⟨?_, ?_, ?_, ?_, ?_, ?_, ?_, ?_, ?_⟩
  · intro u
    rfl
  · intro u t ht hu
    simp [loaderFires, parkContainerEffect, Nat.pos_iff_ne_zero.1 ht, hu]
  · intro u t ht hu
    simp [loaderFires, parkContainerEffect, Nat.pos_iff_ne_zero.1 ht, Nat.not_lt.2 hu]
  · intro p u
    simp [loaderFires, establishmentContainerEffect]
  · intro p u t ht hu
    simp [loaderFires, establishmentContainerEffect, Nat.pos_iff_ne_zero.1 ht, hu]
  · intro p u t ht hu
    simp [loaderFires, establishmentContainerEffect, Nat.pos_iff_ne_zero.1 ht,
      Nat.not_lt.2 hu]
  · intro p u
    simp [loaderFires, searchBarEffect]
  · intro p u t ht hu
    simp [loaderFires, searchBarEffect, Nat.pos_iff_ne_zero.1 ht, hu]
  · intro p u t ht hu
    simp [loaderFires, searchBarEffect, Nat.pos_iff_ne_zero.1 ht, Nat.not_lt.2 hu]

/-- Witness for C5: concrete ticks of the two polling components. -/
theorem polling_schedule_witness :
    (loaderFires parkContainerEffect 20000 15000 = true ↔ 15000 % 15000 = 0) ∧
    loaderFires parkContainerEffect 15000 15000 = false ∧
    (loaderFires (establishmentContainerEffect "/") 5 0 = true ↔
      ("/" = "/" ∨ "/" = "/search")) ∧
    (loaderFires (establishmentContainerEffect "/x") 5000 1000 = true ↔ 1000 % 1000 = 0) := by
  refine ⟨?_, ?_, ?_, ?_⟩
  · exact polling_schedule.2.1 20000 15000 (by decide) (by decide)
  · exact polling_schedule.2.2.1 15000 15000 (by decide) (by decide)
  · exact polling_schedule.2.2.2.1 "/" 5
  · exact polling_schedule.2.2.2.2.1 "/x" 5000 1000 (by decide) (by decide)
